import Mathlib

/-!
Shallow embedding of the request-orchestration core of
`web/src/app/layout.tsx` (the "IA de Planilhas" client): upload slots,
the slot-count clamping effect, the multipart submission builder, the
file-type check on picking a file, the `summarize` rendering function,
and the dual-mode response handling of `handleSubmit`.  JavaScript
strings are modelled as Lean `String`, JS truthiness of a string is
"nonempty", `null`/`undefined` fields are `Option`, and machine
numbers that only ever hold small integers are `Int`/`Nat`.
-/

/-- An opaque user-selected file: a name plus opaque byte content
(mirrors the DOM `File` handle as far as the client code reads it). -/
structure JFile where
  name : String
  content : List Nat
deriving DecidableEq

/-- One upload unit, from `type UploadSlot = \x7b file?: File | null; alias: string; sheet?: string \x7d`.
The source field `alias` is a Batteries command keyword in Lean, so it is
spelled `aliasName` here. -/
structure UploadSlot where
  file : Option JFile
  aliasName : String
  sheet : Option String
deriving DecidableEq

/-- Server-reported outcome of one processing request, from `type RunSummary`.
`sort_order` is `"asc" | "desc"` but optional, and the code only compares it
with `"desc"`, so it is kept as an optional string. `fill_missing` is
`string | null`. -/
structure RunSummary where
  detected_action : String
  destination : String
  source : String
  key : String
  added_columns : List String
  fill_missing : Option String
  rows_total : Nat
  rows_unmatched : Nat
  sort_order : Option String
deriving DecidableEq

/-- Download links of a JSON-mode response, from `RunResponse.artifacts`. -/
structure Artifacts where
  result_url : String
  unmatched_url : Option String
  log_url : Option String
deriving DecidableEq

/-- Body of a structured JSON success response, from `type RunResponse`. -/
structure RunResponse where
  session_id : String
  summary : RunSummary
  artifacts : Artifacts
deriving DecidableEq

/-- One transcript entry, from `type ChatMessage` (tagged by `role`). -/
inductive ChatMessage
  | user (text : String) (whenAt : String)
  | assistant (summary : RunSummary) (artifacts : Artifacts) (whenAt : String)
deriving DecidableEq

/-- JS truthiness of an optional string field: present and nonempty. -/
def strTruthy (o : Option String) : Bool :=
  match o with
  | none => false
  | some v => v ≠ ""

/-- The `summarize` helper of the source, rendered verbatim: sort summaries
get the ascending wording unless `sort_order === "desc"`; merge summaries
fall back to "colunas selecionadas" when `added_columns` is empty and only
mention the fill value when `fill_missing` is truthy. -/
def summarize (s : RunSummary) : String :=
  if s.detected_action = "SORT" then
    let order := if s.sort_order = some "desc" then "decrescente" else "crescente"
    "Planilha \"" ++ s.destination ++ "\" ordenada por \"" ++ s.key ++
      "\" em ordem " ++ order ++ ". Total de linhas: " ++ toString s.rows_total ++ "."
  else
    let cols := if s.added_columns.length ≠ 0 then String.intercalate ", " s.added_columns
      else "colunas selecionadas"
    let fill := if strTruthy s.fill_missing then
        " Ausentes preenchidos com \"" ++ s.fill_missing.getD "" ++ "\"."
      else ""
    let unmatched := " Sem correspondência: " ++ toString s.rows_unmatched ++ "."
    "Mesclagem concluída: colunas " ++ cols ++ " copiadas de \"" ++ s.source ++
      "\" para \"" ++ s.destination ++ "\" usando a chave \"" ++ s.key ++
      "\". Total de linhas: " ++ toString s.rows_total ++ "." ++ unmatched ++ fill

/-- Claim C5: the summarization function is total over `RunSummary`: a sort
summary missing `sort_order` renders the ascending phrasing, a merge summary
with empty `added_columns` substitutes the generic columns phrase, and when
`fill_missing` is absent the rendered sentence carries no fill clause — every
optional field has an explicit fallback and no gap is left in the output. -/
theorem summarize_total_spec (s : RunSummary) :
    (s.detected_action = "SORT" → s.sort_order = none →
      summarize s = "Planilha \"" ++ s.destination ++ "\" ordenada por \"" ++ s.key ++
        "\" em ordem crescente. Total de linhas: " ++ toString s.rows_total ++ ".")
    ∧ (s.detected_action ≠ "SORT" → s.added_columns = [] →
      summarize s = "Mesclagem concluída: colunas colunas selecionadas copiadas de \"" ++
        s.source ++ "\" para \"" ++ s.destination ++ "\" usando a chave \"" ++ s.key ++
        "\". Total de linhas: " ++ toString s.rows_total ++ "." ++
        (" Sem correspondência: " ++ toString s.rows_unmatched ++ ".") ++
        (if strTruthy s.fill_missing then
          " Ausentes preenchidos com \"" ++ s.fill_missing.getD "" ++ "\"." else ""))
    ∧ (s.detected_action ≠ "SORT" → s.fill_missing = none →
      summarize s = "Mesclagem concluída: colunas " ++
        (if s.added_columns.length ≠ 0 then String.intercalate ", " s.added_columns
          else "colunas selecionadas") ++
        " copiadas de \"" ++ s.source ++ "\" para \"" ++ s.destination ++
        "\" usando a chave \"" ++ s.key ++ "\". Total de linhas: " ++
        toString s.rows_total ++ "." ++
        (" Sem correspondência: " ++ toString s.rows_unmatched ++ ".")) := by
  refine ⟨fun hact hord => ?_, fun hact hcols => ?_, fun hact hfill => ?_⟩
  · simp [summarize, hact, hord, String.append_assoc]
  · simp only [summarize, if_neg hact, hcols]
    simp [String.append_assoc]
  · simp only [summarize, if_neg hact, hfill, strTruthy]
    simp [String.append_assoc]

/-- Witness for `summarize_total_spec` at two concrete summaries: a sort
summary with no `sort_order` and a merge summary with no added columns and
no fill value. -/
theorem summarize_total_spec_witness :
    summarize
        { detected_action := "SORT", destination := "x", source := "", key := "nome",
          added_columns := [], fill_missing := none, rows_total := 10,
          rows_unmatched := 0, sort_order := none } =
      "Planilha \"x\" ordenada por \"nome\" em ordem crescente. Total de linhas: 10."
    ∧ summarize
        { detected_action := "MERGE", destination := "d", source := "s", key := "cpf",
          added_columns := [], fill_missing := none, rows_total := 3,
          rows_unmatched := 1, sort_order := none } =
      "Mesclagem concluída: colunas colunas selecionadas copiadas de \"s\" para \"d\" usando a chave \"cpf\". Total de linhas: 3. Sem correspondência: 1." := by
  constructor
  · have h := (summarize_total_spec
      { detected_action := "SORT", destination := "x", source := "", key := "nome",
        added_columns := [], fill_missing := none, rows_total := 10,
        rows_unmatched := 0, sort_order := none }).1 rfl rfl
    rw [h]
    decide
  · have h := (summarize_total_spec
      { detected_action := "MERGE", destination := "d", source := "s", key := "cpf",
        added_columns := [], fill_missing := none, rows_total := 3,
        rows_unmatched := 1, sort_order := none }).2.2 (by decide) rfl
    rw [h]
    decide

/-- A fresh blank slot, from the `\x7b alias: "" \x7d` fill object used when the
slot list grows: no file, empty alias, no sheet. -/
def blankSlot : UploadSlot :=
  { file := none, aliasName := "", sheet := none }

/-- JS `totalSlots || 1`: the stored count with `0` (falsy) replaced by 1. -/
def jsOrOne (n : Int) : Int :=
  if n = 0 then 1 else n

/-- The clamp `Math.min(5, Math.max(1, totalSlots || 1))` of the slot-count
effect. -/
def clampSlots (totalSlots : Int) : Int :=
  min 5 (max 1 (jsOrOne totalSlots))

/-- The slot-count reconciliation effect: grow by appending blank slots when
the list is shorter than the clamped request, truncate when longer, and leave
the list alone when it already matches. -/
def adjustSlots (slots : List UploadSlot) (totalSlots : Int) : List UploadSlot :=
  if slots.length < (clampSlots totalSlots).toNat then
    slots ++ List.replicate ((clampSlots totalSlots).toNat - slots.length) blankSlot
  else if (clampSlots totalSlots).toNat < slots.length then
    slots.take ((clampSlots totalSlots).toNat)
  else slots

/-- Claim C2: the resulting slot list length is the request clamped to [1,5]:
requests inside [1,5] are honoured exactly, requests below 1 yield one slot,
requests above 5 yield five; growing appends blank-alias slots and shrinking
truncates the list. -/
theorem adjustSlots_length_spec (slots : List UploadSlot) (totalSlots : Int) :
    (adjustSlots slots totalSlots).length = (clampSlots totalSlots).toNat
    ∧ (1 ≤ totalSlots → totalSlots ≤ 5 →
        (adjustSlots slots totalSlots).length = totalSlots.toNat)
    ∧ (totalSlots < 1 → (adjustSlots slots totalSlots).length = 1)
    ∧ (5 < totalSlots → (adjustSlots slots totalSlots).length = 5)
    ∧ (slots.length < (clampSlots totalSlots).toNat →
        adjustSlots slots totalSlots =
          slots ++ List.replicate ((clampSlots totalSlots).toNat - slots.length) blankSlot)
    ∧ ((clampSlots totalSlots).toNat < slots.length →
        adjustSlots slots totalSlots = slots.take ((clampSlots totalSlots).toNat)) := by
  have hlen : (adjustSlots slots totalSlots).length = (clampSlots totalSlots).toNat := by
    unfold adjustSlots
    split
    · rename_i h
      rw [List.length_append, List.length_replicate]
      omega
    · split
      · rename_i h
        rw [List.length_take]
        omega
      · omega
  refine ⟨hlen, fun h1 h5 => ?_, fun h0 => ?_, fun h6 => ?_, fun hlt => ?_, fun hgt => ?_⟩
  · rw [hlen]
    unfold clampSlots jsOrOne
    split
    · omega
    · congr 1
      omega
  · rw [hlen]
    unfold clampSlots jsOrOne
    split
    · rfl
    · rename_i hne
      have : max 1 totalSlots = 1 := by omega
      rw [this]
      rfl
  · rw [hlen]
    unfold clampSlots jsOrOne
    split
    · omega
    · have : max 1 totalSlots = totalSlots := by omega
      rw [this]
      have : min 5 totalSlots = 5 := by omega
      rw [this]
      rfl
  · unfold adjustSlots
    rw [if_pos hlt]
  · unfold adjustSlots
    rw [if_neg (by omega), if_pos hgt]

/-- Witness for `adjustSlots_length_spec`: a request of -3 yields one slot, a
request of 9 yields five, and a request of 3 on a two-slot list yields three. -/
theorem adjustSlots_length_spec_witness :
    (adjustSlots [] (-3)).length = 1
    ∧ (adjustSlots [] 9).length = 5
    ∧ (adjustSlots [blankSlot, blankSlot] 3).length = 3 := by
  refine ⟨(adjustSlots_length_spec [] (-3)).2.2.1 (by decide),
    (adjustSlots_length_spec [] 9).2.2.2.1 (by decide),
    (adjustSlots_length_spec [blankSlot, blankSlot] 3).2.1 (by decide) (by decide)⟩

/-- The allowed upload extensions, from `ALLOWED_EXTS`. -/
def ALLOWED_EXTS : List String :=
  [".csv", ".xlsx"]

/-- Character-level lowercasing of a string, modelling
`name.toLowerCase()`. -/
def lowerStr (s : String) : String :=
  String.mk (s.data.map Char.toLower)

/-- Whether the first list is an initial segment of the second. -/
def leadsWith {α : Type} [DecidableEq α] : List α → List α → Bool
  | [], _ => true
  | _ :: _, [] => false
  | a :: as, b :: bs => a = b && leadsWith as bs

/-- JS `s.endsWith(post)`, over character lists. -/
def endsWithStr (s post : String) : Bool :=
  leadsWith post.data.reverse s.data.reverse

/-- The `isAllowed` file-type check: the lowercased file name must end in one
of the allowed extensions. -/
def isAllowed (f : JFile) : Bool :=
  ALLOWED_EXTS.any (fun ext => endsWithStr (lowerStr f.name) ext)

/-- `updateSlot(i, patch)`: apply the patch to the slot at index `i` and keep
every other slot. -/
def updateSlot (slots : List UploadSlot) (i : Nat) (patch : UploadSlot → UploadSlot) :
    List UploadSlot :=
  slots.enum.map (fun p => if p.1 = i then patch p.2 else p.2)

/-- JS `name.split(".")`: split a character list at every dot, keeping empty
segments (so the result is always nonempty). -/
def splitDots : List Char → List (List Char)
  | [] => [[]]
  | c :: rest =>
    match splitDots rest with
    | [] => [[]]
    | p :: ps => if c = '.' then [] :: p :: ps else (c :: p) :: ps

/-- The extension shown in the unsupported-type toast:
`f.name.split(".").pop() || "desconhecido"`. -/
def extOf (name : String) : String :=
  match (splitDots name.data).getLast? with
  | none => "desconhecido"
  | some t => if t = [] then "desconhecido" else String.mk t

/-- The toast text pushed for a file with an unsupported extension. -/
def unsupportedMsg (f : JFile) : String :=
  "Tipo não suportado (" ++ extOf f.name ++ "). Use CSV ou XLSX."

/-- The `handlePick` handler: clearing a slot stores `none`; a disallowed file
pushes one toast and leaves the slot list untouched; an allowed file is stored
in the slot. Returns the new slot list and the toasts pushed. -/
def handlePick (slots : List UploadSlot) (i : Nat) (f : Option JFile) :
    List UploadSlot × List String :=
  match f with
  | none => (updateSlot slots i (fun s => { s with file := none }), [])
  | some file =>
    if isAllowed file = false then (slots, [unsupportedMsg file])
    else (updateSlot slots i (fun s => { s with file := some file }), [])

/-- Counterexample to claim C8: a slot already holding `a.xlsx` on which the
user then picks `dados.pdf`.  One unsupported-type toast is pushed, but the
slot is left with its previous file — it is not left empty. -/
theorem handlePick_not_emptied_counterexample :
    handlePick [{ file := some ⟨"a.xlsx", []⟩, aliasName := "x", sheet := none }] 0
        (some ⟨"dados.pdf", []⟩) =
      ([{ file := some ⟨"a.xlsx", []⟩, aliasName := "x", sheet := none }],
        ["Tipo não suportado (pdf). Use CSV ou XLSX."])
    ∧ some (⟨"a.xlsx", []⟩ : JFile) ≠ none := by
  constructor
  · decide
  · decide

/-- Claim C8 (amended): picking a file whose extension is outside
\x7b.csv, .xlsx\x7d pushes exactly one unsupported-type toast and leaves the whole
slot list unchanged (the offending slot keeps whatever file it had before,
which is empty only if it was already empty); other slots are unaffected and
the submission flow is not aborted. -/
theorem handlePick_rejected_spec (slots : List UploadSlot) (i : Nat) (f : JFile)
    (h : isAllowed f = false) :
    handlePick slots i (some f) = (slots, [unsupportedMsg f]) := by
  simp [handlePick, h]

/-- Witness for `handlePick_rejected_spec`: picking `dados.pdf` on an empty
two-slot list pushes the toast naming the `pdf` extension and keeps the
slots. -/
theorem handlePick_rejected_spec_witness :
    handlePick [blankSlot, blankSlot] 1 (some ⟨"dados.pdf", []⟩) =
      ([blankSlot, blankSlot], ["Tipo não suportado (pdf). Use CSV ou XLSX."]) := by
  have h := handlePick_rejected_spec [blankSlot, blankSlot] 1 ⟨"dados.pdf", []⟩ (by decide)
  rw [h]
  decide

/-- Positional multipart field name: `file${idx+1}` for the 0-based index
`idx` of a populated slot. -/
def fileField (idx : Nat) : String :=
  "file" ++ toString (idx + 1)

/-- Character-level whitespace trim, modelling `alias.trim()`. -/
def jsTrim (s : String) : String :=
  String.mk (((s.data.dropWhile Char.isWhitespace).reverse.dropWhile Char.isWhitespace).reverse)

/-- The alias serialized for the populated slot at 0-based index `idx`:
`s.alias?.trim() || planilha_${idx+1}` — the trimmed alias when nonblank,
else the positional default. -/
def aliasValue (idx : Nat) (s : UploadSlot) : String :=
  if jsTrim s.aliasName = "" then "planilha_" ++ toString (idx + 1) else jsTrim s.aliasName

/-- The `file1..fileN` binary parts appended to the form, in slot order,
starting at 0-based index `i`. -/
def formFiles : Nat → List UploadSlot → List (String × Option JFile)
  | _, [] => []
  | i, s :: rest => (fileField i, s.file) :: formFiles (i + 1) rest

/-- The alias map appended to the form: every populated slot contributes its
positional field name, in order. -/
def formAliases : Nat → List UploadSlot → List (String × String)
  | _, [] => []
  | i, s :: rest => (fileField i, aliasValue i s) :: formAliases (i + 1) rest

/-- The sheet map appended to the form: only slots whose `sheet` is truthy
contribute, keyed by their positional field name. -/
def formSheets : Nat → List UploadSlot → List (String × String)
  | _, [] => []
  | i, s :: rest =>
    (if strTruthy s.sheet then [(fileField i, s.sheet.getD "")] else []) ++
      formSheets (i + 1) rest

/-- The assembled multipart submission of `handleSubmit`: file parts, the
`aliases` JSON map, the optional `sheets` JSON map (omitted when empty), and
the scalar fields `prompt`, `session_id`, `download` and `out_format`. -/
structure FormDataModel where
  files : List (String × Option JFile)
  aliases : List (String × String)
  sheets : Option (List (String × String))
  prompt : String
  session_id : String
  download : String
  out_format : String
deriving DecidableEq

/-- Build the outbound submission from the populated slots, mirroring the
form-construction block of `handleSubmit`: `sheets` is appended only when the
sheet map is nonempty, `download` is `"1"`/`"0"`, `out_format` is fixed to
`xlsx`. -/
def buildForm (used : List UploadSlot) (prompt sessionId : String) (autoDownload : Bool) :
    FormDataModel :=
  { files := formFiles 0 used
    aliases := formAliases 0 used
    sheets := if (formSheets 0 used).length ≠ 0 then some (formSheets 0 used) else none
    prompt := prompt
    session_id := sessionId
    download := if autoDownload then "1" else "0"
    out_format := "xlsx" }

/-- The file parts are keyed by consecutive positional field names. -/
theorem formFiles_map_fst (l : List UploadSlot) :
    ∀ i : Nat, (formFiles i l).map Prod.fst = (List.range' i l.length).map fileField := by
  induction l with
  | nil => intro i; simp [formFiles]
  | cons s rest ih =>
    intro i
    simp only [formFiles, List.map_cons, List.length_cons, List.range'_succ, ih (i + 1)]

/-- The alias map is keyed by consecutive positional field names. -/
theorem formAliases_map_fst (l : List UploadSlot) :
    ∀ i : Nat, (formAliases i l).map Prod.fst = (List.range' i l.length).map fileField := by
  induction l with
  | nil => intro i; simp [formAliases]
  | cons s rest ih =>
    intro i
    simp only [formAliases, List.map_cons, List.length_cons, List.range'_succ, ih (i + 1)]

/-- Positional lookup in the alias map: entry `j` holds the field name and
serialized alias of slot `j`. -/
theorem formAliases_get (l : List UploadSlot) :
    ∀ i j : Nat, ∀ s : UploadSlot, l.get? j = some s →
      (formAliases i l).get? j = some (fileField (i + j), aliasValue (i + j) s) := by
  induction l with
  | nil => intro i j s h; simp at h
  | cons a rest ih =>
    intro i j s h
    cases j with
    | zero =>
      simp at h
      simp [formAliases, h]
    | succ j =>
      simp only [List.get?_cons_succ] at h
      have := ih (i + 1) j s h
      simpa [formAliases, Nat.add_assoc, Nat.add_comm 1 j] using this

/-- A serialized alias is never the empty string: blank aliases fall back to
the positional default. -/
theorem aliasValue_ne_empty (idx : Nat) (s : UploadSlot) : aliasValue idx s ≠ "" := by
  unfold aliasValue
  split
  · intro h
    have hlen := congrArg String.length h
    rw [String.length_append] at hlen
    have h9 : ("planilha_" : String).length = 9 := by decide
    have h0 : ("" : String).length = 0 := by decide
    omega
  · rename_i h
    exact h

/-- Every value stored in the alias map is nonempty. -/
theorem formAliases_snd_ne_empty (l : List UploadSlot) :
    ∀ i : Nat, ∀ kv ∈ formAliases i l, kv.2 ≠ "" := by
  induction l with
  | nil => intro i kv h; simp [formAliases] at h
  | cons a rest ih =>
    intro i kv h
    simp only [formAliases, List.mem_cons] at h
    rcases h with h | h
    · subst h
      exact aliasValue_ne_empty i a
    · exact ih (i + 1) kv h

/-- Claim C3: for a submission built from at least one populated slot, the
file parts are named `file1..fileN` contiguously and 1-indexed in slot order,
the alias map has exactly those field names as keys, every serialized alias
is nonempty, and a slot whose alias is blank after trimming serializes to
`planilha_<n>` for its 1-based position `n`. -/
theorem buildForm_positional_spec (used : List UploadSlot) (p sid : String) (dl : Bool)
    (h : 1 ≤ used.length) :
    ((buildForm used p sid dl).files.map Prod.fst =
      (List.range used.length).map fileField)
    ∧ ((buildForm used p sid dl).aliases.map Prod.fst =
      (buildForm used p sid dl).files.map Prod.fst)
    ∧ (∀ kv ∈ (buildForm used p sid dl).aliases, kv.2 ≠ "")
    ∧ (∀ j : Nat, ∀ s : UploadSlot, used.get? j = some s → jsTrim s.aliasName = "" →
      (buildForm used p sid dl).aliases.get? j =
        some (fileField j, "planilha_" ++ toString (j + 1))) := by
  refine ⟨?_, ?_, ?_, ?_⟩
  · simp only [buildForm]
    rw [formFiles_map_fst used 0, List.range_eq_range' used.length]
  · simp only [buildForm]
    rw [formFiles_map_fst used 0, formAliases_map_fst used 0]
  · simp only [buildForm]
    exact formAliases_snd_ne_empty used 0
  · intro j s hget hblank
    simp only [buildForm]
    have hj := formAliases_get used 0 j s hget
    rw [Nat.zero_add] at hj
    rw [hj]
    unfold aliasValue
    rw [if_pos hblank]

/-- Witness for `buildForm_positional_spec`: two populated slots, the second
with a whitespace-only alias; the parts are `file1`, `file2` and the blank
alias serializes to `planilha_2`. -/
theorem buildForm_positional_spec_witness :
    ((buildForm [{ file := some ⟨"a.xlsx", []⟩, aliasName := "usuarios_id", sheet := none },
        { file := some ⟨"b.csv", []⟩, aliasName := "  ", sheet := none }]
        "merge by name" "sess1" true).files.map Prod.fst = ["file1", "file2"])
    ∧ ((buildForm [{ file := some ⟨"a.xlsx", []⟩, aliasName := "usuarios_id", sheet := none },
        { file := some ⟨"b.csv", []⟩, aliasName := "  ", sheet := none }]
        "merge by name" "sess1" true).aliases.get? 1 = some ("file2", "planilha_2")) := by
  have h := buildForm_positional_spec
    [{ file := some ⟨"a.xlsx", []⟩, aliasName := "usuarios_id", sheet := none },
      { file := some ⟨"b.csv", []⟩, aliasName := "  ", sheet := none }]
    "merge by name" "sess1" true (by decide)
  constructor
  · rw [h.1]
    decide
  · have h4 := h.2.2.2 1 { file := some ⟨"b.csv", []⟩, aliasName := "  ", sheet := none }
      (by decide) (by decide)
    rw [h4]
    decide

/-- Characterization of the sheet-map keys: a key occurs exactly for the
populated slots whose sheet selector is truthy, at their positional field
name. -/
theorem mem_formSheets_keys (l : List UploadSlot) :
    ∀ i : Nat, ∀ k : String,
      k ∈ (formSheets i l).map Prod.fst ↔
        ∃ j s, l.get? j = some s ∧ strTruthy s.sheet = true ∧ k = fileField (i + j) := by
  induction l with
  | nil =>
    intro i k
    simp [formSheets]
  | cons a rest ih =>
    intro i k
    simp only [formSheets, List.map_append, List.mem_append, ih (i + 1)]
    constructor
    · rintro (hhead | ⟨j, s, hget, htr, hk⟩)
      · by_cases htr : strTruthy a.sheet
        · rw [if_pos htr] at hhead
          simp at hhead
          exact ⟨0, a, by simp, htr, by simpa using hhead⟩
        · rw [if_neg htr] at hhead
          simp at hhead
      · exact ⟨j + 1, s, by simpa using hget, htr, by rw [hk]; congr 1; omega⟩
    · rintro ⟨j, s, hget, htr, hk⟩
      cases j with
      | zero =>
        left
        simp at hget
        rw [if_pos (hget ▸ htr)]
        simp [hk, hget]
      | succ j =>
        right
        simp only [List.get?_cons_succ] at hget
        exact ⟨j, s, hget, htr, by rw [hk]; congr 1; omega⟩

/-- When no slot has a truthy sheet selector, the sheet map is empty. -/
theorem formSheets_eq_nil (l : List UploadSlot) :
    ∀ i : Nat, (∀ s ∈ l, strTruthy s.sheet = false) → formSheets i l = [] := by
  induction l with
  | nil => intro i _; rfl
  | cons a rest ih =>
    intro i h
    have ha := h a (by simp)
    simp only [formSheets, ha]
    simp only [Bool.false_eq_true, if_false, List.nil_append]
    exact ih (i + 1) (fun s hs => h s (by simp [hs]))

/-- Positional field names are distinct for indexes below the slot-count
bound of five. -/
theorem fileField_inj_lt5 :
    ∀ j, j < 5 → ∀ k, k < 5 → fileField j = fileField k → j = k := by decide

/-- Claim C4: in a submission (whose populated-slot count respects the [1,5]
slot invariant), a slot without a truthy sheet selector never contributes a
key to the sheet map, every key of the sheet map comes from a slot with a
truthy sheet selector, and when no populated slot has a sheet selector the
`sheets` field is omitted from the submission entirely (it is `none`, not an
empty map); when the map is nonempty it is sent as-is. -/
theorem buildForm_sheets_spec (used : List UploadSlot) (p sid : String) (dl : Bool)
    (h5 : used.length ≤ 5) :
    (∀ j s, used.get? j = some s → strTruthy s.sheet = false →
      fileField j ∉ (formSheets 0 used).map Prod.fst)
    ∧ (∀ k, k ∈ (formSheets 0 used).map Prod.fst →
      ∃ j s, used.get? j = some s ∧ strTruthy s.sheet = true ∧ k = fileField j)
    ∧ ((∀ s ∈ used, strTruthy s.sheet = false) →
      (buildForm used p sid dl).sheets = none)
    ∧ (formSheets 0 used ≠ [] →
      (buildForm used p sid dl).sheets = some (formSheets 0 used)) := by
  refine ⟨?_, ?_, ?_, ?_⟩
  · intro j s hget hfalse hmem
    rw [mem_formSheets_keys used 0 (fileField j)] at hmem
    obtain ⟨j', s', hget', htr', hk⟩ := hmem
    rw [Nat.zero_add] at hk
    have hj : j < used.length := (List.get?_eq_some.mp hget).1
    have hj' : j' < used.length := (List.get?_eq_some.mp hget').1
    have hjj : j = j' := fileField_inj_lt5 j (lt_of_lt_of_le hj h5) j'
      (lt_of_lt_of_le hj' h5) hk
    subst hjj
    rw [hget] at hget'
    injection hget' with hs
    rw [← hs] at htr'
    rw [hfalse] at htr'
    exact Bool.false_ne_true htr'
  · intro k hk
    rw [mem_formSheets_keys used 0 k] at hk
    obtain ⟨j, s, hget, htr, hkk⟩ := hk
    exact ⟨j, s, hget, htr, by simpa using hkk⟩
  · intro hall
    simp only [buildForm]
    rw [formSheets_eq_nil used 0 hall]
    simp
  · intro hne
    simp only [buildForm]
    rw [if_pos (by simpa [List.length_eq_zero] using hne)]

/-- Witness for `buildForm_sheets_spec`: with a first slot selecting sheet
`Plan1` and a second slot without a selector, `file2` is not a key of the
sheet map; and a submission whose slots select no sheet omits the `sheets`
field. -/
theorem buildForm_sheets_spec_witness :
    (fileField 1 ∉ (formSheets 0
      [{ file := some ⟨"a.xlsx", []⟩, aliasName := "x", sheet := some "Plan1" },
        { file := some ⟨"b.csv", []⟩, aliasName := "y", sheet := none }]).map Prod.fst)
    ∧ (buildForm
        [{ file := some ⟨"a.xlsx", []⟩, aliasName := "usuarios_id", sheet := none },
          { file := some ⟨"b.csv", []⟩, aliasName := "usuarios_cpf", sheet := none }]
        "merge by name" "sess2" true).sheets = none := by
  constructor
  · exact (buildForm_sheets_spec
      [{ file := some ⟨"a.xlsx", []⟩, aliasName := "x", sheet := some "Plan1" },
        { file := some ⟨"b.csv", []⟩, aliasName := "y", sheet := none }]
      "p" "s" true (by decide)).1 1
      { file := some ⟨"b.csv", []⟩, aliasName := "y", sheet := none } (by decide) (by decide)
  · exact (buildForm_sheets_spec
      [{ file := some ⟨"a.xlsx", []⟩, aliasName := "usuarios_id", sheet := none },
        { file := some ⟨"b.csv", []⟩, aliasName := "usuarios_cpf", sheet := none }]
      "merge by name" "sess2" true (by decide)).2.2.1 (by decide)

/-- JS `s.includes(sub)`: whether `sub` occurs contiguously in `s`. -/
def occursIn (sub : List Char) : List Char → Bool
  | [] => leadsWith sub []
  | b :: bs => leadsWith sub (b :: bs) || occursIn sub bs

/-- String form of `occursIn`. -/
def strIncludes (s sub : String) : Bool :=
  occursIn sub.data s.data

/-- Match the literal characters of `pat` case-insensitively at the head of
`cs`, returning the remainder on success. -/
def dropLitCI : List Char → List Char → Option (List Char)
  | [], cs => some cs
  | _ :: _, [] => none
  | p :: ps, c :: cs => if c.toLower = p.toLower then dropLitCI ps cs else none

/-- Try the regex `filename="?([^"]+)"?` (flag `i`) at the current position:
after the literal `filename=`, an optional opening quote, then a nonempty run
of non-quote characters is captured (backtracking over the optional quote
cannot help when the run is empty, because the next character is then a quote
or the end of input). -/
def tryMatchFilename (cs : List Char) : Option (List Char) :=
  match dropLitCI "filename=".data cs with
  | none => none
  | some rest =>
    let body := match rest with
      | '"' :: r2 => r2.takeWhile (fun c => ¬ c = '"')
      | _ => rest.takeWhile (fun c => ¬ c = '"')
    if body.isEmpty then none else some body

/-- Scan left to right for the first position where the filename pattern
matches, as `String.prototype.match` does. -/
def scanFilename : List Char → Option (List Char)
  | [] => none
  | c :: rest =>
    match tryMatchFilename (c :: rest) with
    | some r => some r
    | none => scanFilename rest

/-- The capture of `cd.match(/filename="?([^"]+)"?/i)`, if any. -/
def extractFilename (cd : String) : Option String :=
  (scanFilename cd.data).map String.mk

/-- The `downloadBlob` helper, reduced to the name it saves under: the
Content-Disposition capture when the pattern matches, else a default chosen
by whether the content type contains `csv`.  Returns the filename of the
triggered save-to-disk side effect. -/
def downloadBlob (content_disposition content_type : Option String) : String :=
  match extractFilename (content_disposition.getD "") with
  | some n => n
  | none =>
    if (match content_type with
        | some ct => strIncludes ct "csv"
        | none => false) then "planilhanova.csv"
    else "planilhanova.xlsx"

/-- Decoding outcome of the JSON error body read on a non-2xx response:
either the body is not JSON, or it decodes to an object whose `detail` field
may be absent. -/
inductive ErrBody
  | undecodable
  | decoded (detail : Option String)
deriving DecidableEq

/-- The `X-Run-Summary` header of a binary response: absent, present but not
valid JSON (in which case `JSON.parse` throws, with the carried message), or
parsed. -/
inductive HeaderSummary
  | absent
  | malformed (msg : String)
  | parsed (s : RunSummary)
deriving DecidableEq

/-- Decoding outcome of the 2xx JSON body: `res.json()` either throws (with
the carried message) or yields a `RunResponse`. -/
inductive JsonBody
  | undecodable (msg : String)
  | decoded (data : RunResponse)
deriving DecidableEq

/-- An HTTP-like response as `handleSubmit` consumes it: status flag, the
headers it reads, and the decoding outcomes of the bodies it may read. -/
structure ResponseModel where
  ok : Bool
  content_type : Option String
  content_disposition : Option String
  x_run_summary : HeaderSummary
  error_body : ErrBody
  json_body : JsonBody
deriving DecidableEq

/-- Outcome of the `fetch` call: the network layer throws (an `Error` with a
message, or a non-`Error` value), or a response arrives. -/
inductive FetchOutcome
  | failed (msg : Option String)
  | responded (r : ResponseModel)
deriving DecidableEq

/-- The placeholder summary synthesized when a binary response carries no
`X-Run-Summary` header. -/
def placeholderSummary : RunSummary :=
  { detected_action := "PROCESS", destination := "(arquivo gerado)", source := "",
    key := "", added_columns := [], fill_missing := none, rows_total := 0,
    rows_unmatched := 0, sort_order := none }

/-- The artifacts record appended on the binary path: all links empty. -/
def binaryArtifacts : Artifacts :=
  { result_url := "", unmatched_url := some "", log_url := some "" }

/-- The content-type test of the binary branch: an XLSX or CSV payload. -/
def isBinaryCtype (ctype : String) : Bool :=
  strIncludes ctype "application/vnd.openxmlformats-officedocument.spreadsheetml.sheet" ||
    strIncludes ctype "text/csv"

/-- The toast text of the non-2xx branch: the decoded `detail` when truthy,
else the generic failure message (`j?.detail || detail`). -/
def errorDetail (b : ErrBody) : String :=
  match b with
  | ErrBody.undecodable => "Erro ao processar."
  | ErrBody.decoded none => "Erro ao processar."
  | ErrBody.decoded (some t) => if t = "" then "Erro ao processar." else t

/-- The message pushed by the outer catch: `e.message` for an `Error`, else
the generic unknown-failure text. -/
def catchMsg (m : Option String) : String :=
  match m with
  | some t => t
  | none => "Erro desconhecido ao processar."

/-- The full client state and side effects after one `handleSubmit` run:
the transcript, the session identifier, the prompt field, the loading flag,
the toasts pushed, the filenames saved to disk, and the submission sent (if
the minimum-file check passed). -/
structure SubmitResult where
  messages : List ChatMessage
  sessionId : String
  promptVal : String
  loading : Bool
  notifications : List String
  downloads : List String
  submitted : Option FormDataModel
deriving DecidableEq

/-- The `handleSubmit` flow as a pure function of the pre-state and the fetch
outcome.  It mirrors the source block for block: minimum-file check, prompt
capture and clearing, the user-turn append, form construction, the non-2xx
branch, the binary branch (header parse, unconditional download, assistant
append), the JSON branch (session adoption, assistant append), the outer
catch, and the `finally` clearing of the loading flag. -/
def handleSubmit (slots : List UploadSlot) (prompt sessionId : String)
    (autoDownload : Bool) (messages : List ChatMessage) (now : String)
    (outcome : FetchOutcome) : SubmitResult :=
  if ((slots.filter (fun s => s.file.isSome)).length < 1) then
    { messages := messages, sessionId := sessionId, promptVal := prompt,
      loading := false, notifications := ["Envie pelo menos 1 arquivo (CSV/XLSX)."],
      downloads := [], submitted := none }
  else
    let msgs1 := messages ++ [ChatMessage.user prompt now]
    let form := buildForm (slots.filter (fun s => s.file.isSome)) prompt sessionId autoDownload
    match outcome with
    | FetchOutcome.failed m =>
      { messages := msgs1, sessionId := sessionId, promptVal := "", loading := false,
        notifications := [catchMsg m], downloads := [], submitted := some form }
    | FetchOutcome.responded r =>
      if r.ok = false then
        { messages := msgs1, sessionId := sessionId, promptVal := "", loading := false,
          notifications := [errorDetail r.error_body], downloads := [],
          submitted := some form }
      else if isBinaryCtype (r.content_type.getD "") then
        match r.x_run_summary with
        | HeaderSummary.malformed m =>
          { messages := msgs1, sessionId := sessionId, promptVal := "", loading := false,
            notifications := [m], downloads := [], submitted := some form }
        | HeaderSummary.absent =>
          { messages := msgs1 ++ [ChatMessage.assistant placeholderSummary binaryArtifacts now],
            sessionId := sessionId, promptVal := "", loading := false, notifications := [],
            downloads := [downloadBlob r.content_disposition r.content_type],
            submitted := some form }
        | HeaderSummary.parsed s =>
          { messages := msgs1 ++ [ChatMessage.assistant s binaryArtifacts now],
            sessionId := sessionId, promptVal := "", loading := false, notifications := [],
            downloads := [downloadBlob r.content_disposition r.content_type],
            submitted := some form }
      else
        match r.json_body with
        | JsonBody.undecodable m =>
          { messages := msgs1, sessionId := sessionId, promptVal := "", loading := false,
            notifications := [m], downloads := [], submitted := some form }
        | JsonBody.decoded data =>
          { messages := msgs1 ++ [ChatMessage.assistant data.summary data.artifacts now],
            sessionId := if data.session_id ≠ "" ∧ data.session_id ≠ sessionId
              then data.session_id else sessionId,
            promptVal := "", loading := false, notifications := [], downloads := [],
            submitted := some form }

/-- Counterexample to claim C1: with the auto-download preference disabled
(`autoDownload = false`), a 2xx `text/csv` response still triggers the
save-to-disk side effect — the download list is not empty. -/
theorem handleSubmit_download_despite_pref_counterexample :
    (handleSubmit [{ file := some ⟨"a.xlsx", []⟩, aliasName := "x", sheet := none }]
        "p" "sess" false [] "t"
        (FetchOutcome.responded
          { ok := true, content_type := some "text/csv", content_disposition := none,
            x_run_summary := HeaderSummary.absent, error_body := ErrBody.undecodable,
            json_body := JsonBody.undecodable "" })).downloads ≠ ([] : List String) := by
  decide

/-- Claim C1 (amended): for every 2xx binary response that reaches the
download step (summary header absent or parsed), the save-to-disk side effect
is triggered unconditionally, for any value of the auto-download preference;
the saved filename is the Content-Disposition capture when the filename
pattern matches, else `planilhanova.csv` when the content type contains
`csv` and `planilhanova.xlsx` otherwise. -/
theorem handleSubmit_download_spec (slots : List UploadSlot) (p sid : String) (dl : Bool)
    (msgs : List ChatMessage) (now : String) (r : ResponseModel)
    (h1 : 1 ≤ (slots.filter (fun s => s.file.isSome)).length)
    (hok : r.ok = true)
    (hbin : isBinaryCtype (r.content_type.getD "") = true)
    (hnm : ∀ m, r.x_run_summary ≠ HeaderSummary.malformed m) :
    ((handleSubmit slots p sid dl msgs now (FetchOutcome.responded r)).downloads =
      [downloadBlob r.content_disposition r.content_type])
    ∧ (∀ n, extractFilename (r.content_disposition.getD "") = some n →
      downloadBlob r.content_disposition r.content_type = n)
    ∧ (extractFilename (r.content_disposition.getD "") = none →
      ((match r.content_type with
        | some ct => strIncludes ct "csv"
        | none => false) = true →
        downloadBlob r.content_disposition r.content_type = "planilhanova.csv")
      ∧ ((match r.content_type with
        | some ct => strIncludes ct "csv"
        | none => false) = false →
        downloadBlob r.content_disposition r.content_type = "planilhanova.xlsx")) := by
  refine ⟨?_, fun n hn => ?_, fun hnone => ⟨fun hcsv => ?_, fun hncsv => ?_⟩⟩
  · unfold handleSubmit
    rw [if_neg (by omega)]
    cases hx : r.x_run_summary with
    | malformed m => exact absurd hx (hnm m)
    | absent => simp [hok, hbin, hx]
    | parsed s => simp [hok, hbin, hx]
  · unfold downloadBlob
    rw [hn]
  · unfold downloadBlob
    rw [hnone]
    simp only [hcsv, if_true]
  · unfold downloadBlob
    rw [hnone]
    simp only [hncsv, Bool.false_eq_true, if_false]

/-- Witness for `handleSubmit_download_spec`: with the preference disabled, a
2xx CSV response whose Content-Disposition names `relatorio.xlsx` is saved
under exactly that name. -/
theorem handleSubmit_download_spec_witness :
    (handleSubmit [{ file := some ⟨"a.xlsx", []⟩, aliasName := "x", sheet := none }]
        "p" "sess" false [] "t"
        (FetchOutcome.responded
          { ok := true, content_type := some "text/csv",
            content_disposition := some "attachment; filename=\"relatorio.xlsx\"",
            x_run_summary := HeaderSummary.absent, error_body := ErrBody.undecodable,
            json_body := JsonBody.undecodable "" })).downloads = ["relatorio.xlsx"] := by
  have h := (handleSubmit_download_spec
    [{ file := some ⟨"a.xlsx", []⟩, aliasName := "x", sheet := none }]
    "p" "sess" false [] "t"
    { ok := true, content_type := some "text/csv",
      content_disposition := some "attachment; filename=\"relatorio.xlsx\"",
      x_run_summary := HeaderSummary.absent, error_body := ErrBody.undecodable,
      json_body := JsonBody.undecodable "" }
    (by decide) rfl (by decide) (by intro m hm; simp at hm)).1
  rw [h]
  decide

/-- Claim C6: a 2xx binary response carrying no `X-Run-Summary` header
appends one assistant transcript entry whose summary is the synthesized
placeholder — generic `PROCESS` action, zero row counts, no added columns —
and whose artifacts record has all links empty. -/
theorem handleSubmit_placeholder_spec (slots : List UploadSlot) (p sid : String) (dl : Bool)
    (msgs : List ChatMessage) (now : String) (r : ResponseModel)
    (h1 : 1 ≤ (slots.filter (fun s => s.file.isSome)).length)
    (hok : r.ok = true)
    (hbin : isBinaryCtype (r.content_type.getD "") = true)
    (habs : r.x_run_summary = HeaderSummary.absent) :
    (handleSubmit slots p sid dl msgs now (FetchOutcome.responded r)).messages =
      msgs ++ [ChatMessage.user p now,
        ChatMessage.assistant
          { detected_action := "PROCESS", destination := "(arquivo gerado)", source := "",
            key := "", added_columns := [], fill_missing := none, rows_total := 0,
            rows_unmatched := 0, sort_order := none }
          { result_url := "", unmatched_url := some "", log_url := some "" } now] := by
  unfold handleSubmit
  rw [if_neg (by omega)]
  simp [hok, hbin, habs, placeholderSummary, binaryArtifacts]

/-- Witness for `handleSubmit_placeholder_spec` at a concrete 2xx CSV
response with no summary header. -/
theorem handleSubmit_placeholder_spec_witness :
    (handleSubmit [{ file := some ⟨"a.xlsx", []⟩, aliasName := "x", sheet := none }]
        "oi" "sess" true [] "t"
        (FetchOutcome.responded
          { ok := true, content_type := some "text/csv", content_disposition := none,
            x_run_summary := HeaderSummary.absent, error_body := ErrBody.undecodable,
            json_body := JsonBody.undecodable "" })).messages =
      [ChatMessage.user "oi" "t",
        ChatMessage.assistant
          { detected_action := "PROCESS", destination := "(arquivo gerado)", source := "",
            key := "", added_columns := [], fill_missing := none, rows_total := 0,
            rows_unmatched := 0, sort_order := none }
          { result_url := "", unmatched_url := some "", log_url := some "" } "t"] := by
  have h := handleSubmit_placeholder_spec
    [{ file := some ⟨"a.xlsx", []⟩, aliasName := "x", sheet := none }]
    "oi" "sess" true [] "t"
    { ok := true, content_type := some "text/csv", content_disposition := none,
      x_run_summary := HeaderSummary.absent, error_body := ErrBody.undecodable,
      json_body := JsonBody.undecodable "" }
    (by decide) rfl (by decide) rfl
  rw [h]
  decide

/-- Counterexample to claim C7: a non-2xx response whose error body decodes
as JSON with a `detail` field holding the empty string.  The claim picks the
server-provided detail, but the code falls back to the generic failure
message because the empty string is falsy. -/
theorem handleSubmit_error_empty_detail_counterexample :
    (handleSubmit [{ file := some ⟨"a.xlsx", []⟩, aliasName := "x", sheet := none }]
        "p" "sess" true [] "t"
        (FetchOutcome.responded
          { ok := false, content_type := none, content_disposition := none,
            x_run_summary := HeaderSummary.absent,
            error_body := ErrBody.decoded (some ""),
            json_body := JsonBody.undecodable "" })).notifications =
      ["Erro ao processar."]
    ∧ ("Erro ao processar." : String) ≠ "" := by
  constructor
  · decide
  · decide

/-- Claim C7 (amended): on every non-2xx response exactly one notification is
raised, whose text is the server-provided `detail` when the error body
decodes as JSON with a nonempty detail string and the generic failure message
otherwise (undecodable body, missing detail, or empty detail); the response
handler appends no transcript entry beyond the pre-flight user turn, the path
is absorbed without throwing, and the loading flag returns to false. -/
theorem handleSubmit_error_spec (slots : List UploadSlot) (p sid : String) (dl : Bool)
    (msgs : List ChatMessage) (now : String) (r : ResponseModel)
    (h1 : 1 ≤ (slots.filter (fun s => s.file.isSome)).length)
    (hok : r.ok = false) :
    ((handleSubmit slots p sid dl msgs now (FetchOutcome.responded r)).notifications =
      [errorDetail r.error_body])
    ∧ ((handleSubmit slots p sid dl msgs now (FetchOutcome.responded r)).messages =
      msgs ++ [ChatMessage.user p now])
    ∧ ((handleSubmit slots p sid dl msgs now (FetchOutcome.responded r)).loading = false)
    ∧ (∀ d, r.error_body = ErrBody.decoded (some d) → d ≠ "" →
      errorDetail r.error_body = d)
    ∧ (r.error_body = ErrBody.undecodable → errorDetail r.error_body = "Erro ao processar.")
    ∧ (r.error_body = ErrBody.decoded none → errorDetail r.error_body = "Erro ao processar.") := by
  refine ⟨?_, ?_, ?_, fun d hd hne => ?_, fun hu => ?_, fun hn => ?_⟩
  · unfold handleSubmit
    rw [if_neg (by omega)]
    simp [hok]
  · unfold handleSubmit
    rw [if_neg (by omega)]
    simp [hok]
  · unfold handleSubmit
    rw [if_neg (by omega)]
    simp [hok]
  · rw [hd]
    simp [errorDetail, hne]
  · rw [hu]
    rfl
  · rw [hn]
    rfl

/-- Witness for `handleSubmit_error_spec`: a 422-style response with body
`detail = "arquivo inválido"` raises a notification with exactly that text,
leaves the transcript at the lone user turn, and clears the loading flag. -/
theorem handleSubmit_error_spec_witness :
    ((handleSubmit [{ file := some ⟨"a.xlsx", []⟩, aliasName := "x", sheet := none }]
        "p" "sess" true [] "t"
        (FetchOutcome.responded
          { ok := false, content_type := none, content_disposition := none,
            x_run_summary := HeaderSummary.absent,
            error_body := ErrBody.decoded (some "arquivo inválido"),
            json_body := JsonBody.undecodable "" })).notifications = ["arquivo inválido"])
    ∧ ((handleSubmit [{ file := some ⟨"a.xlsx", []⟩, aliasName := "x", sheet := none }]
        "p" "sess" true [] "t"
        (FetchOutcome.responded
          { ok := false, content_type := none, content_disposition := none,
            x_run_summary := HeaderSummary.absent,
            error_body := ErrBody.decoded (some "arquivo inválido"),
            json_body := JsonBody.undecodable "" })).messages = [ChatMessage.user "p" "t"])
    ∧ ((handleSubmit [{ file := some ⟨"a.xlsx", []⟩, aliasName := "x", sheet := none }]
        "p" "sess" true [] "t"
        (FetchOutcome.responded
          { ok := false, content_type := none, content_disposition := none,
            x_run_summary := HeaderSummary.absent,
            error_body := ErrBody.decoded (some "arquivo inválido"),
            json_body := JsonBody.undecodable "" })).loading = false) := by
  have h := handleSubmit_error_spec
    [{ file := some ⟨"a.xlsx", []⟩, aliasName := "x", sheet := none }]
    "p" "sess" true [] "t"
    { ok := false, content_type := none, content_disposition := none,
      x_run_summary := HeaderSummary.absent,
      error_body := ErrBody.decoded (some "arquivo inválido"),
      json_body := JsonBody.undecodable "" }
    (by decide) rfl
  refine ⟨?_, ?_, h.2.2.1⟩
  · rw [h.1]
    decide
  · rw [h.2.1]
    decide

/-- Counterexample to claim C9: a 2xx JSON response whose `session_id` is the
empty string — a value that differs from the current identifier `abc` — is
not adopted: the current identifier stays `abc` because the code guards
adoption behind JS truthiness of the server value. -/
theorem handleSubmit_adopt_empty_counterexample :
    ((handleSubmit [{ file := some ⟨"a.xlsx", []⟩, aliasName := "x", sheet := none }]
        "p" "abc" true [] "t"
        (FetchOutcome.responded
          { ok := true, content_type := some "application/json", content_disposition := none,
            x_run_summary := HeaderSummary.absent, error_body := ErrBody.undecodable,
            json_body := JsonBody.decoded
              { session_id := "",
                summary :=
                  { detected_action := "SORT", destination := "x", source := "",
                    key := "k", added_columns := [], fill_missing := none, rows_total := 1,
                    rows_unmatched := 0, sort_order := none },
                artifacts :=
                  { result_url := "/r", unmatched_url := none, log_url := none } } })).sessionId = "abc")
    ∧ ("" : String) ≠ "abc" := by
  constructor
  · decide
  · decide

/-- Claim C9 (amended): a 2xx JSON response whose `session_id` is nonempty
and differs from the current identifier makes the client adopt the server
value, while every previously appended transcript entry is preserved
unchanged, in order, as a prefix — adoption never clears the transcript; the
handler only appends the user turn and the new assistant turn. -/
theorem handleSubmit_adopt_session_spec (slots : List UploadSlot) (p sid : String)
    (dl : Bool) (msgs : List ChatMessage) (now : String) (r : ResponseModel)
    (data : RunResponse)
    (h1 : 1 ≤ (slots.filter (fun s => s.file.isSome)).length)
    (hok : r.ok = true)
    (hnb : isBinaryCtype (r.content_type.getD "") = false)
    (hjson : r.json_body = JsonBody.decoded data)
    (hne : data.session_id ≠ "")
    (hdiff : data.session_id ≠ sid) :
    ((handleSubmit slots p sid dl msgs now (FetchOutcome.responded r)).sessionId =
      data.session_id)
    ∧ ((handleSubmit slots p sid dl msgs now (FetchOutcome.responded r)).messages =
      msgs ++ [ChatMessage.user p now,
        ChatMessage.assistant data.summary data.artifacts now]) := by
  constructor
  · unfold handleSubmit
    rw [if_neg (by omega)]
    simp [hok, hnb, hjson, hne, hdiff]
  · unfold handleSubmit
    rw [if_neg (by omega)]
    simp [hok, hnb, hjson]

/-- Witness for `handleSubmit_adopt_session_spec`: with current session
`abc`, a JSON response carrying session `srv12345` is adopted and the
transcript keeps its prior entry followed by the new turns. -/
theorem handleSubmit_adopt_session_spec_witness :
    ((handleSubmit [{ file := some ⟨"a.xlsx", []⟩, aliasName := "x", sheet := none }]
        "p" "abc" true [ChatMessage.user "antes" "t0"] "t"
        (FetchOutcome.responded
          { ok := true, content_type := some "application/json", content_disposition := none,
            x_run_summary := HeaderSummary.absent, error_body := ErrBody.undecodable,
            json_body := JsonBody.decoded
              { session_id := "srv12345",
                summary :=
                  { detected_action := "SORT", destination := "x", source := "",
                    key := "k", added_columns := [], fill_missing := none, rows_total := 1,
                    rows_unmatched := 0, sort_order := none },
                artifacts :=
                  { result_url := "/r", unmatched_url := none, log_url := none } } })).sessionId = "srv12345")
    ∧ ((handleSubmit [{ file := some ⟨"a.xlsx", []⟩, aliasName := "x", sheet := none }]
        "p" "abc" true [ChatMessage.user "antes" "t0"] "t"
        (FetchOutcome.responded
          { ok := true, content_type := some "application/json", content_disposition := none,
            x_run_summary := HeaderSummary.absent, error_body := ErrBody.undecodable,
            json_body := JsonBody.decoded
              { session_id := "srv12345",
                summary :=
                  { detected_action := "SORT", destination := "x", source := "",
                    key := "k", added_columns := [], fill_missing := none, rows_total := 1,
                    rows_unmatched := 0, sort_order := none },
                artifacts :=
                  { result_url := "/r", unmatched_url := none, log_url := none } } })).messages =
      [ChatMessage.user "antes" "t0", ChatMessage.user "p" "t",
        ChatMessage.assistant
          { detected_action := "SORT", destination := "x", source := "", key := "k",
            added_columns := [], fill_missing := none, rows_total := 1,
            rows_unmatched := 0, sort_order := none }
          { result_url := "/r", unmatched_url := none, log_url := none } "t"]) := by
  have h := handleSubmit_adopt_session_spec
    [{ file := some ⟨"a.xlsx", []⟩, aliasName := "x", sheet := none }]
    "p" "abc" true [ChatMessage.user "antes" "t0"] "t"
    { ok := true, content_type := some "application/json", content_disposition := none,
      x_run_summary := HeaderSummary.absent, error_body := ErrBody.undecodable,
      json_body := JsonBody.decoded
        { session_id := "srv12345",
          summary :=
            { detected_action := "SORT", destination := "x", source := "",
              key := "k", added_columns := [], fill_missing := none, rows_total := 1,
              rows_unmatched := 0, sort_order := none },
          artifacts := { result_url := "/r", unmatched_url := none, log_url := none } } }
    { session_id := "srv12345",
      summary :=
        { detected_action := "SORT", destination := "x", source := "",
          key := "k", added_columns := [], fill_missing := none, rows_total := 1,
          rows_unmatched := 0, sort_order := none },
      artifacts := { result_url := "/r", unmatched_url := none, log_url := none } }
    (by decide) rfl (by decide) rfl (by decide) (by decide)
  refine ⟨h.1, ?_⟩
  rw [h.2]
  decide

/-- Whether a transcript entry is a user turn (`role === "user"`). -/
def isUserTurn : ChatMessage → Bool
  | ChatMessage.user _ _ => true
  | ChatMessage.assistant _ _ _ => false

/-- Claim C10: every submission that passes the minimum-file check appends
exactly one user turn carrying the captured instruction text, placed right
after the prior transcript, and that turn survives every outcome — transport
failure, non-2xx status, malformed header or body, binary success and JSON
success; whatever follows it is never another user turn (only an assistant
entry on the success paths). -/
theorem handleSubmit_user_turn_spec (slots : List UploadSlot) (p sid : String)
    (dl : Bool) (msgs : List ChatMessage) (now : String) (outcome : FetchOutcome)
    (h1 : 1 ≤ (slots.filter (fun s => s.file.isSome)).length) :
    ∃ rest, (handleSubmit slots p sid dl msgs now outcome).messages =
      msgs ++ ChatMessage.user p now :: rest
      ∧ ∀ m ∈ rest, isUserTurn m = false := by
  unfold handleSubmit
  rw [if_neg (by omega)]
  cases outcome with
  | failed m =>
    exact ⟨[], by simp, by simp⟩
  | responded r =>
    dsimp only
    by_cases hok : r.ok = false
    · rw [if_pos hok]
      exact ⟨[], by simp, by simp⟩
    · rw [if_neg hok]
      by_cases hbin : isBinaryCtype (r.content_type.getD "") = true
      · rw [if_pos hbin]
        cases r.x_run_summary with
        | malformed m' => exact ⟨[], by simp, by simp⟩
        | absent =>
          exact ⟨[ChatMessage.assistant placeholderSummary binaryArtifacts now],
            by simp, by simp [isUserTurn]⟩
        | parsed s =>
          exact ⟨[ChatMessage.assistant s binaryArtifacts now],
            by simp, by simp [isUserTurn]⟩
      · rw [if_neg hbin]
        cases r.json_body with
        | undecodable m' => exact ⟨[], by simp, by simp⟩
        | decoded data =>
          exact ⟨[ChatMessage.assistant data.summary data.artifacts now],
            by simp, by simp [isUserTurn]⟩

/-- Witness for `handleSubmit_user_turn_spec`: even when the fetch throws a
non-`Error` value, the user turn is present in the transcript. -/
theorem handleSubmit_user_turn_spec_witness :
    ∃ rest, (handleSubmit [{ file := some ⟨"a.xlsx", []⟩, aliasName := "x", sheet := none }]
        "instrucao" "sess" true [] "t" (FetchOutcome.failed none)).messages =
      [] ++ ChatMessage.user "instrucao" "t" :: rest
      ∧ ∀ m ∈ rest, isUserTurn m = false :=
  handleSubmit_user_turn_spec
    [{ file := some ⟨"a.xlsx", []⟩, aliasName := "x", sheet := none }]
    "instrucao" "sess" true [] "t" (FetchOutcome.failed none) (by decide)
